import Mathlib

/-!
Shallow embedding of the coffee-shop review router (src/unnamed/part_000, an
Express + Mongoose route module) together with the store semantics it runs
against, and theorems settling the frozen claims about it.

Conventions of the embedding:
* JavaScript numbers are modelled by `JsNum` over exact fractions with
  explicit `NaN` and infinities (signed zeros are not modelled; they are
  unreachable in this program, whose only division has an array length as
  denominator).
* Request-body fields arrive as strings; `jsNumber` models `Number(string)`
  coercion on plain decimal literals (hex/exponent forms are out of scope:
  no claim depends on them).
* A handler is a function from the current store (list of documents) and the
  request parameters to the produced HTTP response and the store after the
  request; the `try/catch` wrapper that turns any thrown `JsErr` into a
  500 response is folded into the handler.
-/

namespace CoffeeRouter

/-- An exact fraction: integer numerator over a positive natural denominator,
kept unnormalized.  Finite JavaScript numbers are modelled by exact fractions
(IEEE rounding is not modelled; every value this program computes over its
small decimal inputs stays exactly representable). -/
structure Frac where
  num : ℤ
  den : ℕ
deriving DecidableEq

/-- The fraction `n / 1`. -/
def Frac.ofNat (n : ℕ) : Frac := ⟨(n : ℤ), 1⟩

/-- Sum of two fractions. -/
def Frac.add (x y : Frac) : Frac :=
  ⟨x.num * (y.den : ℤ) + y.num * (x.den : ℤ), x.den * y.den⟩

/-- Product of two fractions. -/
def Frac.mul (x y : Frac) : Frac := ⟨x.num * y.num, x.den * y.den⟩

/-- Negation of a fraction. -/
def Frac.neg (x : Frac) : Frac := ⟨-x.num, x.den⟩

/-- Quotient of two fractions (meaningful when `y.num ≠ 0`); the sign moves to
the numerator so the denominator stays a natural. -/
def Frac.div (x y : Frac) : Frac :=
  if y.num < 0 then ⟨-(x.num * (y.den : ℤ)), x.den * y.num.natAbs⟩
  else ⟨x.num * (y.den : ℤ), x.den * y.num.natAbs⟩

/-- Comparison `x ≤ y` by cross-multiplication (denominators positive). -/
def Frac.ble (x y : Frac) : Bool := x.num * (y.den : ℤ) ≤ y.num * (x.den : ℤ)

/-- The floor of a fraction, via floor-division of the numerator. -/
def Frac.floor (x : Frac) : ℤ := x.num.fdiv (x.den : ℤ)

/-- Model of a JavaScript number value: `NaN`, the two infinities, or a
finite (fractional) value. -/
inductive JsNum where
  | nan : JsNum
  | posInf : JsNum
  | negInf : JsNum
  | num : Frac → JsNum
deriving DecidableEq

/-- JavaScript `+` on numbers: `NaN` is absorbing, opposite infinities give
`NaN`, otherwise an infinity dominates, and finite values add exactly. -/
def jsAdd : JsNum → JsNum → JsNum
  | .nan, _ => .nan
  | _, .nan => .nan
  | .posInf, .negInf => .nan
  | .negInf, .posInf => .nan
  | .posInf, _ => .posInf
  | _, .posInf => .posInf
  | .negInf, _ => .negInf
  | _, .negInf => .negInf
  | .num a, .num b => .num (a.add b)

/-- JavaScript `/` on numbers: `NaN` is absorbing, `0/0` is `NaN`, a nonzero
finite value divided by `0` is a signed infinity, infinities over finite
values keep their sign, and a finite value over an infinity is `0`. -/
def jsDiv : JsNum → JsNum → JsNum
  | .nan, _ => .nan
  | _, .nan => .nan
  | .posInf, .posInf => .nan
  | .posInf, .negInf => .nan
  | .negInf, .posInf => .nan
  | .negInf, .negInf => .nan
  | .posInf, .num b => if b.num < 0 then .negInf else .posInf
  | .negInf, .num b => if b.num < 0 then .posInf else .negInf
  | .num _, .posInf => .num (Frac.ofNat 0)
  | .num _, .negInf => .num (Frac.ofNat 0)
  | .num a, .num b =>
      if b.num = 0 then
        if a.num = 0 then .nan else if a.num < 0 then .negInf else .posInf
      else .num (a.div b)

/-- Digits of a nonempty all-decimal character list read as a natural number;
`none` when the list is empty or holds a non-digit. -/
def decDigits (l : List Char) : Option ℕ :=
  if l = [] then none
  else if l.all Char.isDigit then
    some (l.foldl (fun acc c => 10 * acc + (c.toNat - 48)) 0)
  else none

/-- JavaScript whitespace characters relevant to `Number()` coercion. -/
def jsWhitespace (c : Char) : Bool :=
  c = ' ' ∨ c = '\t' ∨ c = '\n' ∨ c = '\r'

/-- Leading and trailing whitespace removed from a character list. -/
def trimWs (l : List Char) : List Char :=
  ((l.dropWhile jsWhitespace).reverse.dropWhile jsWhitespace).reverse

/-- Negation of a JavaScript number. -/
def jsNeg : JsNum → JsNum
  | .nan => .nan
  | .posInf => .negInf
  | .negInf => .posInf
  | .num q => .num q.neg

/-- An unsigned decimal literal (digits with an optional single dot) read as a
JavaScript number; anything else is `NaN`. -/
def parseUnsigned (body : List Char) : JsNum :=
  let intPart := body.takeWhile (fun c => c ≠ '.')
  match body.dropWhile (fun c => c ≠ '.') with
  | [] =>
      match decDigits intPart with
      | some n => .num (Frac.ofNat n)
      | none => .nan
  | _ :: fracPart =>
      if fracPart.any (fun c => c = '.') then .nan
      else if intPart = [] ∧ fracPart = [] then .nan
      else
        let ip := if intPart = [] then some 0 else decDigits intPart
        let fp := if fracPart = [] then some 0 else decDigits fracPart
        match ip, fp with
        | some i, some f => .num ⟨(i * 10 ^ fracPart.length + f : ℕ), 10 ^ fracPart.length⟩
        | _, _ => .nan

/-- Model of JavaScript `Number(string)` on the forms this program can meet:
whitespace is trimmed, the empty string is `0`, `Infinity` forms are signed
infinities, an optional sign followed by decimal digits with an optional
fractional part parses as a rational, and anything else is `NaN`. -/
def jsNumber (s : String) : JsNum :=
  let t := trimWs s.toList
  if t = [] then .num (Frac.ofNat 0)
  else if t = "Infinity".toList ∨ t = "+Infinity".toList then .posInf
  else if t = "-Infinity".toList then .negInf
  else
    match t with
    | '-' :: body => jsNeg (parseUnsigned body)
    | '+' :: body => parseUnsigned body
    | body => parseUnsigned body

/-- Rounding half away from zero, as `Number.prototype.toFixed` rounds. -/
def roundHalfAway (q : Frac) : ℤ :=
  if 0 ≤ q.num then (q.add ⟨1, 2⟩).floor else -((q.neg.add ⟨1, 2⟩).floor)

/-- Rendering of a fraction with exactly two digits after the decimal point. -/
def ratToFixed2 (q : Frac) : String :=
  let n := roundHalfAway (q.mul (Frac.ofNat 100))
  let a := n.natAbs
  (if n < 0 then "-" else "") ++ toString (a / 100) ++ "." ++
    (if a % 100 < 10 then "0" else "") ++ toString (a % 100)

/-- Model of `x.toFixed(2)`: returns a STRING; on `NaN` it is `"NaN"`. -/
def toFixed2 : JsNum → String
  | .nan => "NaN"
  | .posInf => "Infinity"
  | .negInf => "-Infinity"
  | .num q => ratToFixed2 q

/-- A JavaScript value as stored in a document field: a number or a string.
This distinction is what claim C10 is about. -/
inductive JVal where
  | jnum : JsNum → JVal
  | jstr : String → JVal
deriving DecidableEq

/-- A comment subdocument, with the fields the router reads and writes
(`src/unnamed/part_000` lines 224-230 and 252-266). The schema's `date`
default is external to the router and no claim mentions it, so it is
omitted. -/
structure Comment where
  id : String
  text : String
  review : String
  name : String
  avatar : String
  user : String
deriving DecidableEq

/-- Modelled from the spec: the ShopRecord fields of §3 (the mongoose schema
file `models/Coffee` is not under src/). `likes` entries are the `user`
identifiers of the `{ user: ... }` subdocuments the router stores; the
derived fields hold whatever JavaScript value the router last assigned. -/
structure Coffee where
  id : String
  text : String
  address : String
  suburb : String
  name : String
  avatar : String
  user : String
  likes : List String
  comments : List Comment
  averageReview : JVal
  totalReview : JVal
deriving DecidableEq

/-- A user document as read by `User.findById(...).select('-password')`. -/
structure UserDoc where
  id : String
  name : String
  avatar : String
deriving DecidableEq

/-- A JavaScript exception relevant to these handlers: a mongoose `CastError`
from casting a malformed id, or a `TypeError` from reading a property of
`null`. Each is caught by the handlers' `catch` and surfaced as a 500. -/
inductive JsErr where
  | castError : JsErr
  | typeError : JsErr
deriving DecidableEq

/-- Decides whether a string is exactly 24 hexadecimal characters, the
`/^[0-9a-fA-F]{24}$/` test of the router. -/
def isHex24 (s : String) : Bool :=
  s.length == 24 && s.toList.all (fun c =>
    c.isDigit || ('a' ≤ c && c ≤ 'f') || ('A' ≤ c && c ≤ 'F'))

/-- Strings that cast to a mongoose ObjectId: 24 hex characters or any
12-character string. Anything else makes `findById` throw `CastError`. -/
def castableId (s : String) : Bool :=
  s.length == 12 || isHex24 s

/-- Modelled from the spec: the document store (`models/Coffee` and the
storage engine are not under src/) holds one document per record (§6); a
lookup casts the id and returns the matching document if any. A malformed
id rejects with `CastError` before any document is produced. -/
def findById (store : List Coffee) (id : String) : Except JsErr (Option Coffee) :=
  if castableId id then .ok (store.find? (fun c => c.id == id)) else .error .castError

/-- Modelled from the spec: `document.save()` persists by unconditionally
replacing the stored document with the in-memory one (§9 "unconditional
overwrite-on-save"; the source configures no version token and no retry). -/
def saveCoffee (store : List Coffee) (c : Coffee) : List Coffee :=
  store.map (fun x => if x.id == c.id then c else x)

/-- An HTTP response of this router, tagged with its payload. -/
inductive Response where
  | okCoffee : Coffee → Response
  | okLikes : List String → Response
  | okComments : List Comment → Response
  | okMsg : String → Response
  | okList : List Coffee → Response
  | notFound : String → Response
  | badRequest : String → Response
  | unauthorized : String → Response
  | serverError : Response
deriving DecidableEq

/-- The HTTP status code of a response. -/
def Response.statusCode : Response → ℕ
  | .okCoffee _ => 200
  | .okLikes _ => 200
  | .okComments _ => 200
  | .okMsg _ => 200
  | .okList _ => 200
  | .notFound _ => 404
  | .badRequest _ => 400
  | .unauthorized _ => 401
  | .serverError => 500

/-- The running sum `comments.reduce((acc, c) => acc + Number(c.review), 0)`
of the getById handler (lines 91-93). -/
def sumReviews (cs : List Comment) : JsNum :=
  cs.foldl (fun acc c => jsAdd acc (jsNumber c.review)) (.num (Frac.ofNat 0))

/-- Embedding of `router.get('/:id')` (lines 88-113).  `coffee.comments` is a
mongoose array field, hence always an array and always truthy, so the
`coffee.comments && _` and `coffee.comments ? _ : 0` expressions always take
their right (respectively first) branch.  When `findById` returns `null`
(well-formed id, no record), line 91 reads `coffee.comments` off `null` and
the thrown `TypeError` is caught as a 500; a malformed id makes `findById`
itself reject (`CastError`), also caught as a 500 — so the
`!req.params.id.match(...) || !coffee` check on line 101 runs only with a
document in hand. -/
def getByIdHandler (store : List Coffee) (id : String) : Response × List Coffee :=
  match findById store id with
  | .error _ => (.serverError, store)
  | .ok none => (.serverError, store)
  | .ok (some coffee) =>
      let totalReviewNumber := sumReviews coffee.comments
      let totalReview : ℕ := coffee.comments.length
      let averageReview := toFixed2 (jsDiv totalReviewNumber (.num (Frac.ofNat totalReview)))
      let coffee' := { coffee with
        averageReview := .jstr averageReview,
        totalReview := .jnum (.num (Frac.ofNat totalReview)) }
      if isHex24 id then (.okCoffee coffee', saveCoffee store coffee')
      else (.notFound "Coffee not found", store)

/-- Embedding of `router.delete('/:id')` (lines 118-140).  A malformed id makes
`findById` reject (`CastError` → 500) before the line-123 check runs; with a
well-formed id and no record the check sees `!post` and returns 404; with a
document in hand the `!id.match(...)` half of the disjunction is what remains
of the check. -/
def deleteHandler (store : List Coffee) (id : String) (callerUser : String) :
    Response × List Coffee :=
  match findById store id with
  | .error _ => (.serverError, store)
  | .ok none => (.notFound "Coffee not found", store)
  | .ok (some post) =>
      if ¬ isHex24 id then (.notFound "Coffee not found", store)
      else if post.user ≠ callerUser then (.unauthorized "User not authorized", store)
      else (.okMsg "Coffee removed", store.filter (fun c => c.id ≠ post.id))

/-- The conflict-check-then-unshift-then-save tail of `router.put('/like/:id')`
(lines 150-160), split out so an interleaved execution can run it against a
record obtained from an earlier read. -/
def likeWrite (store : List Coffee) (post : Coffee) (uid : String) :
    Response × List Coffee :=
  if 0 < (post.likes.filter (fun l => l == uid)).length then
    (.badRequest "Coffee already liked", store)
  else
    let newLikes := uid :: post.likes
    (.okLikes newLikes, saveCoffee store { post with likes := newLikes })

/-- Embedding of `router.put('/like/:id')` (lines 145-165).  There is no null
check: with a well-formed id and no record, `post.likes` on line 151 reads a
property of `null` and the `TypeError` is caught as a 500; a malformed id is
a `CastError` from `findById`, also a 500. -/
def likeHandler (store : List Coffee) (id : String) (uid : String) :
    Response × List Coffee :=
  match findById store id with
  | .error _ => (.serverError, store)
  | .ok none => (.serverError, store)
  | .ok (some post) => likeWrite store post uid

/-- Embedding of `router.put('/unlike/:id')` (lines 170-196).  As with like,
there is no null check, so a missing or malformed id surfaces as a 500.  The
guard guarantees the user is present, so `indexOf` finds an index (the JS
`splice(-1, 1)` behaviour on a `-1` index is unreachable; `eraseIdx` at an
out-of-range index is the identity here). -/
def unlikeHandler (store : List Coffee) (id : String) (uid : String) :
    Response × List Coffee :=
  match findById store id with
  | .error _ => (.serverError, store)
  | .ok none => (.serverError, store)
  | .ok (some post) =>
      if (post.likes.filter (fun l => l == uid)).length == 0 then
        (.badRequest "Coffee has not yet been liked", store)
      else
        let removeIndex := post.likes.indexOf uid
        let newLikes := post.likes.eraseIdx removeIndex
        (.okLikes newLikes, saveCoffee store { post with likes := newLikes })

/-- Embedding of `router.post('/comment/:id')` (lines 201-242).  The
express-validator chain checks only that `text` and `review` are non-empty
(`.not().isEmpty()`); there is no numeric check on `review`.  The fresh
subdocument id minted by the store at save time is passed in as `freshId`
(modelled: id issuance is the store's, external to the router). A missing
user or record document makes the subsequent property access throw, caught
as a 500. -/
def addCommentHandler (store : List Coffee) (users : List UserDoc)
    (uid : String) (id : String) (text review : String) (freshId : String) :
    Response × List Coffee :=
  if text = "" ∨ review = "" then (.badRequest "Text is required", store)
  else
    match users.find? (fun u => u.id == uid) with
    | none => (.serverError, store)
    | some user =>
        match findById store id with
        | .error _ => (.serverError, store)
        | .ok none => (.serverError, store)
        | .ok (some coffee) =>
            let newComment : Comment :=
              { id := freshId, text := text, review := review,
                name := user.name, avatar := user.avatar, user := uid }
            let newComments := newComment :: coffee.comments
            (.okComments newComments, saveCoffee store { coffee with comments := newComments })

/-- Embedding of `router.delete('/comment/:id/:comment_id')` (lines 247-275).
`find` locates the first comment whose `id` equals the parameter; absence is
a 404, a foreign author a 401, and otherwise `filter` drops every comment
with that id and the result is saved. -/
def removeCommentHandler (store : List Coffee) (id : String) (commentId : String)
    (uid : String) : Response × List Coffee :=
  match findById store id with
  | .error _ => (.serverError, store)
  | .ok none => (.serverError, store)
  | .ok (some post) =>
      match post.comments.find? (fun c => c.id == commentId) with
      | none => (.notFound "Comment does not exist", store)
      | some comment =>
          if comment.user ≠ uid then (.unauthorized "User not authorized", store)
          else
            let newComments := post.comments.filter (fun c => c.id != commentId)
            (.okComments newComments, saveCoffee store { post with comments := newComments })

/-- The `label` lookup table of `router.get('/')` (lines 56-61): note the
`loweset` spelling in the source; `lowest` is NOT a key. -/
def sortLabel (sortby : String) : Option String :=
  if sortby = "highest" then some "averageReview"
  else if sortby = "loweset" then some "averageReview"
  else if sortby = "most" then some "totalReview"
  else if sortby = "least" then some "totalReview"
  else none

/-- The `labelValue` lookup table of `router.get('/')` (lines 62-67). -/
def sortDir (sortby : String) : Option String :=
  if sortby = "highest" then some "-1"
  else if sortby = "loweset" then some "1"
  else if sortby = "most" then some "-1"
  else if sortby = "least" then some "1"
  else none

/-- BSON-style comparison key for a `JsNum` (total, for sorting only). -/
def jsNumLe (a b : JsNum) : Bool :=
  match a, b with
  | .nan, _ => true
  | _, .nan => false
  | .negInf, _ => true
  | _, .negInf => false
  | .num x, .num y => x.ble y
  | .num _, .posInf => true
  | .posInf, .num _ => false
  | .posInf, .posInf => true

/-- BSON-style comparison of field values: numbers sort before strings,
strings compare lexicographically. -/
def jvalLe : JVal → JVal → Bool
  | .jnum a, .jnum b => jsNumLe a b
  | .jnum _, .jstr _ => true
  | .jstr _, .jnum _ => false
  | .jstr a, .jstr b => decide (a ≤ b)

/-- The sort field of a document, by field name. -/
def coffeeKey (field : String) (c : Coffee) : JVal :=
  if field = "totalReview" then c.totalReview else c.averageReview

/-- Modelled from the spec: the store's `find().sort({field: dir})` (storage
engine not under src/) returns all documents ordered by the named field,
descending when the direction is `-1`. -/
def mongoSort (store : List Coffee) (field : String) (descending : Bool) :
    List Coffee :=
  store.mergeSort (fun a b =>
    if descending then jvalLe (coffeeKey field b) (coffeeKey field a)
    else jvalLe (coffeeKey field a) (coffeeKey field b))

/-- Embedding of `router.get('/')` (lines 54-83).  For an unrecognized
`sortby` both tables yield `undefined`, so the handler builds the sort object
`{undefined: undefined}`; the store driver rejects an undefined sort value
with a `TypeError` (modelled from the spec's §6 failure column: "500 on store
error"), caught by the handler as a 500.  No 400/validation branch exists in
this handler at all. -/
def listHandler (store : List Coffee) (sortby : String) : Response :=
  match sortLabel sortby, sortDir sortby with
  | some field, some dir => .okList (mongoSort store field (dir = "-1"))
  | _, _ => .serverError

/-- The pure mutation the like handler applies to a `likes` sequence (guard
and unshift of lines 150-156); an error response leaves the sequence
unchanged. -/
def likeLikes (likes : List String) (uid : String) : List String :=
  if 0 < (likes.filter (fun l => l == uid)).length then likes
  else uid :: likes

/-- The pure mutation the unlike handler applies to a `likes` sequence (guard,
`indexOf` and `splice` of lines 175-187); an error response leaves the
sequence unchanged. -/
def unlikeLikes (likes : List String) (uid : String) : List String :=
  if (likes.filter (fun l => l == uid)).length == 0 then likes
  else likes.eraseIdx (likes.indexOf uid)

/-- A like-toggling operation issued by one user. -/
inductive LikeOp where
  | like : LikeOp
  | unlike : LikeOp
deriving DecidableEq

/-- Applies one like/unlike operation by user `uid` to a `likes` sequence. -/
def applyOp (uid : String) (likes : List String) : LikeOp → List String
  | .like => likeLikes likes uid
  | .unlike => unlikeLikes likes uid

/-- Runs a sequence of like/unlike operations by one user. -/
def runOps (uid : String) (likes : List String) (ops : List LikeOp) : List String :=
  ops.foldl (applyOp uid) likes

/-- Interleaved execution of two like requests against the same record: both
`Coffee.findById` reads happen before either conflict-check/unshift/save
write phase, which is a legal overlap since each request is an independent
worker and the store is the only shared state (spec §5). -/
def twoLikesInterleaved (store : List Coffee) (id : String) (uA uB : String) :
    Response × Response × List Coffee :=
  match findById store id, findById store id with
  | .ok (some postA), .ok (some postB) =>
      let resA := likeWrite store postA uA
      let resB := likeWrite resA.2 postB uB
      (resA.1, resB.1, resB.2)
  | _, _ => (.serverError, .serverError, store)

/-! Concrete fixtures used by the closed theorems and witnesses. -/

/-- A well-formed 24-hex identifier present in the sample stores. -/
def cid1 : String := "aaaaaaaaaaaaaaaaaaaaaaaa"

/-- A well-formed 24-hex identifier matching no record in the sample stores. -/
def cid2 : String := "bbbbbbbbbbbbbbbbbbbbbbbb"

/-- A freshly created shop: no likes, no comments, zero derived fields. -/
def shopA : Coffee :=
  { id := cid1, text := "nice beans", address := "1 High St", suburb := "CBD",
    name := "Shop A", avatar := "avA", user := "owner1",
    likes := [], comments := [],
    averageReview := .jnum (.num (Frac.ofNat 0)),
    totalReview := .jnum (.num (Frac.ofNat 0)) }

/-- A comment with review "4" by user u1. -/
def com1 : Comment :=
  { id := "c1", text := "good", review := "4", name := "Ann", avatar := "avAnn",
    user := "u1" }

/-- A comment with review "5" by user u2. -/
def com2 : Comment :=
  { id := "c2", text := "fine", review := "5", name := "Bob", avatar := "avBob",
    user := "u2" }

/-- The shop with two comments, reviews 4 and 5 (the spec's §8 example). -/
def shopC : Coffee := { shopA with comments := [com1, com2] }

/-- The shop already liked by u1. -/
def shopL : Coffee := { shopA with likes := ["u1"] }

/-- The profile of user u1 as stored in the user collection. -/
def userAnn : UserDoc := { id := "u1", name := "Ann", avatar := "avAnn" }


/-- The comment stored by the C7 counterexample scenario: a non-numeric
review accepted by the route. -/
def comNaN : Comment :=
  { id := "c9", text := "great", review := "not-a-number", name := "Ann",
    avatar := "avAnn", user := "u1" }

/-- The comment stored by the C7 witness scenario. -/
def comTasty : Comment :=
  { id := "c9", text := "tasty", review := "4", name := "Ann",
    avatar := "avAnn", user := "u1" }

/-! ## Claim C10 -/

/-- C10: on every successful getById of a record (a fortiori one with a
non-empty comments array), the returned and persisted record carries
`averageReview` as the STRING produced by `toFixed(2)` (`JVal.jstr`) while
`totalReview` is a number (`JVal.jnum`): the derived fields change
representation type as a side effect of the read, and the mutated record is
saved back to the store. -/
theorem claim_C10_getById_stores_string_average (store : List Coffee)
    (id : String) (coffee : Coffee) (hf : findById store id = .ok (some coffee))
    (hid : isHex24 id = true) (_hne : coffee.comments ≠ []) :
    getByIdHandler store id =
      (.okCoffee { coffee with
          averageReview := .jstr (toFixed2 (jsDiv (sumReviews coffee.comments)
            (.num (Frac.ofNat coffee.comments.length)))),
          totalReview := .jnum (.num (Frac.ofNat coffee.comments.length)) },
       saveCoffee store { coffee with
          averageReview := .jstr (toFixed2 (jsDiv (sumReviews coffee.comments)
            (.num (Frac.ofNat coffee.comments.length)))),
          totalReview := .jnum (.num (Frac.ofNat coffee.comments.length)) }) := by
  unfold getByIdHandler
  rw [hf]
  simp [hid]

/-- Witness for C10 at the spec's §8 example record (reviews "4" and "5"):
the stored and returned average is the string "4.50", the total the
number 2. -/
theorem claim_C10_witness :
    getByIdHandler [shopC] cid1 =
      (.okCoffee { shopC with
          averageReview := .jstr (toFixed2 (jsDiv (sumReviews shopC.comments)
            (.num (Frac.ofNat shopC.comments.length)))),
          totalReview := .jnum (.num (Frac.ofNat shopC.comments.length)) },
       saveCoffee [shopC] { shopC with
          averageReview := .jstr (toFixed2 (jsDiv (sumReviews shopC.comments)
            (.num (Frac.ofNat shopC.comments.length)))),
          totalReview := .jnum (.num (Frac.ofNat shopC.comments.length)) })
  ∧ toFixed2 (jsDiv (sumReviews shopC.comments)
      (.num (Frac.ofNat shopC.comments.length))) = "4.50" :=
  ⟨claim_C10_getById_stores_string_average [shopC] cid1 shopC (by rfl) (by rfl)
    (by decide), by decide⟩

end CoffeeRouter


namespace CoffeeRouter

/-! ## Claim C1 -/

/-- C1: the claim states that for every record returned by getById,
`totalReview` is the comment count and `averageReview` is the rounded mean,
equal to `0` (never `NaN`) when `comments` is empty.  The code violates the
empty case: a record with an empty comments array is truthy (arrays always
are), so getById computes `(0/0).toFixed(2)` and returns — and persists —
`averageReview = "NaN"`, not `0`.  This theorem evaluates the handler at such
a record. -/
theorem claim_C1_empty_comments_average_is_NaN :
    getByIdHandler [shopA] cid1 =
      (.okCoffee { shopA with averageReview := .jstr "NaN",
                              totalReview := .jnum (.num (Frac.ofNat 0)) },
       [{ shopA with averageReview := .jstr "NaN",
                     totalReview := .jnum (.num (Frac.ofNat 0)) }])
  ∧ toFixed2 (jsDiv (.num (Frac.ofNat 0)) (.num (Frac.ofNat 0))) = "NaN"
  ∧ JVal.jstr "NaN" ≠ JVal.jnum (.num (Frac.ofNat 0)) := by
  refine ⟨by decide, by decide, by decide⟩

/-! ## Claim C2 -/

/-- C2: the claim states that two like operations by distinct users on the
same record at overlapping times both end up in `likes`.  The code violates
it: each request is an unguarded read-modify-write against the store, and in
the interleaving read-A, read-B, write-A, write-B both requests report
success (200 with their own like applied), yet the persisted record holds
only user B's like — user A's update is silently overwritten (lost update).
This theorem evaluates that interleaving at a concrete record. -/
theorem claim_C2_concurrent_likes_lose_update :
    twoLikesInterleaved [shopA] cid1 "u1" "u2" =
      (.okLikes ["u1"], .okLikes ["u2"], [{ shopA with likes := ["u2"] }])
  ∧ ¬ ("u1" ∈ ({ shopA with likes := ["u2"] } : Coffee).likes)
  ∧ (Response.okLikes ["u1"]).statusCode = 200
  ∧ (Response.okLikes ["u2"]).statusCode = 200 := by
  refine ⟨by decide, by decide, rfl, rfl⟩

/-! ## Claim C3 -/

/-- C3: the claim states that getById and delete reject identifiers that are
not 24-hex with `NotFoundError` before any store access, and answer
`NotFoundError` for well-formed ids matching no record.  The code violates
it: both handlers call `Coffee.findById` FIRST, so a malformed id rejects
with `CastError`, caught as a 500 (the regex check on lines 101/123 sits
after the store call and never sees a malformed id), and in getById a
well-formed id with no record crashes on `coffee.comments` of `null`, also a
500.  Only delete's missing-record case produces the claimed 404.  This
theorem evaluates all four situations. -/
theorem claim_C3_id_validation_after_store_access :
    (getByIdHandler [shopA] "abc").1 = .serverError
  ∧ (deleteHandler [shopA] "abc" "owner1").1 = .serverError
  ∧ (getByIdHandler [shopA] cid2).1 = .serverError
  ∧ (deleteHandler [shopA] cid2 "owner1").1 = .notFound "Coffee not found"
  ∧ findById [shopA] "abc" = .error .castError
  ∧ Response.serverError.statusCode = 500 := by
  refine ⟨by decide, by decide, by decide, by decide, rfl, rfl⟩

end CoffeeRouter

namespace CoffeeRouter

/-! ## Supporting lemmas for the like ledger -/

/-- The conflict guard `likes.filter(l => l == u).length` of the like/unlike
handlers counts exactly the occurrences of `u`. -/
theorem filter_length_eq_count (likes : List String) (u : String) :
    (likes.filter (fun l => l == u)).length = likes.count u := by
  rw [List.count_eq_countP, List.countP_eq_length_filter]

/-- One like by `u` keeps `u`'s multiplicity in the sequence at most one. -/
theorem count_likeLikes (likes : List String) (u : String)
    (h : likes.count u ≤ 1) : (likeLikes likes u).count u ≤ 1 := by
  unfold likeLikes
  by_cases hg : 0 < (likes.filter (fun l => l == u)).length
  · simpa [hg] using h
  · have hc : likes.count u = 0 := by
      rw [← filter_length_eq_count]; omega
    simp [hg, hc]

/-- One unlike by `u` keeps `u`'s multiplicity in the sequence at most one. -/
theorem count_unlikeLikes (likes : List String) (u : String)
    (h : likes.count u ≤ 1) : (unlikeLikes likes u).count u ≤ 1 := by
  unfold unlikeLikes
  by_cases hg : (likes.filter (fun l => l == u)).length = 0
  · simpa [hg] using h
  · rw [if_neg (by simpa using hg), List.eraseIdx_indexOf_eq_erase]
    exact le_trans ((List.erase_sublist u likes).count_le u) h

/-- Any single like/unlike operation preserves the at-most-once bound. -/
theorem count_applyOp (u : String) (likes : List String) (op : LikeOp)
    (h : likes.count u ≤ 1) : (applyOp u likes op).count u ≤ 1 := by
  cases op
  · exact count_likeLikes likes u h
  · exact count_unlikeLikes likes u h

/-- Any sequence of like/unlike operations by `u` preserves the at-most-once
bound. -/
theorem count_runOps (u : String) (likes : List String) (ops : List LikeOp)
    (h : likes.count u ≤ 1) : (runOps u likes ops).count u ≤ 1 := by
  induction ops generalizing likes with
  | nil => exact h
  | cons op ops ih => exact ih (applyOp u likes op) (count_applyOp u likes op h)

end CoffeeRouter

namespace CoffeeRouter

/-! ## Claim C4 -/

/-- C4: for every sequence of like/unlike operations by one user, after any
prefix the likes sequence holds that user at most once (invariant I1, from an
initial state satisfying it); a like while already present answers the
conflict response (400 "Coffee already liked") leaving the store unchanged,
and a like while absent prepends the user (newest-first) and saves. -/
theorem claim_C4_likes_at_most_once :
    (∀ (uid : String) (likes : List String) (ops : List LikeOp) (n : ℕ),
        likes.count uid ≤ 1 → (runOps uid likes (ops.take n)).count uid ≤ 1)
  ∧ (∀ (store : List Coffee) (id uid : String) (post : Coffee),
        findById store id = .ok (some post) → uid ∈ post.likes →
        likeHandler store id uid = (.badRequest "Coffee already liked", store))
  ∧ (∀ (store : List Coffee) (id uid : String) (post : Coffee),
        findById store id = .ok (some post) → uid ∉ post.likes →
        likeHandler store id uid =
          (.okLikes (uid :: post.likes),
           saveCoffee store { post with likes := uid :: post.likes })) := by
  refine ⟨fun uid likes ops n h => count_runOps uid likes (ops.take n) h, ?_, ?_⟩
  · intro store id uid post hf hmem
    have h0 : 0 < (post.likes.filter (fun l => l == uid)).length := by
      rw [filter_length_eq_count]
      exact List.count_pos_iff.mpr hmem
    simp only [likeHandler, likeWrite, hf]
    rw [if_pos h0]
  · intro store id uid post hf hmem
    have h0 : ¬ 0 < (post.likes.filter (fun l => l == uid)).length := by
      rw [filter_length_eq_count]
      simp [List.count_eq_zero.mpr hmem]
    simp only [likeHandler, likeWrite, hf]
    rw [if_neg h0]

/-- Witness for C4: a like-unlike-like run by u1 from an empty sequence keeps
the bound, a like on an already-liked record answers the 400 conflict, and a
like on an unliked record prepends u1 and saves. -/
theorem claim_C4_witness :
    (runOps "u1" [] ([LikeOp.like, LikeOp.unlike, LikeOp.like].take 2)).count "u1" ≤ 1
  ∧ likeHandler [shopL] cid1 "u1" = (.badRequest "Coffee already liked", [shopL])
  ∧ likeHandler [shopA] cid1 "u1" =
      (.okLikes ["u1"], saveCoffee [shopA] { shopA with likes := ["u1"] }) :=
  ⟨claim_C4_likes_at_most_once.1 "u1" [] [LikeOp.like, LikeOp.unlike, LikeOp.like] 2
      (by decide),
   claim_C4_likes_at_most_once.2.1 [shopL] cid1 "u1" shopL rfl (by decide),
   claim_C4_likes_at_most_once.2.2 [shopA] cid1 "u1" shopA rfl (by decide)⟩

/-! ## Claim C8 -/

/-- C8: unlike by a user absent from `likes` answers the conflict response
(400 "Coffee has not yet been liked") leaving the store unchanged; unlike by
a present user removes exactly the first matching entry (the only one under
I1), leaving all other entries and their order unchanged, and saves. -/
theorem claim_C8_unlike_removes_single_entry :
    (∀ (store : List Coffee) (id uid : String) (post : Coffee),
        findById store id = .ok (some post) → uid ∉ post.likes →
        unlikeHandler store id uid =
          (.badRequest "Coffee has not yet been liked", store))
  ∧ (∀ (store : List Coffee) (id uid : String) (post : Coffee)
        (l₁ l₂ : List String),
        findById store id = .ok (some post) → post.likes = l₁ ++ uid :: l₂ →
        uid ∉ l₁ →
        unlikeHandler store id uid =
          (.okLikes (l₁ ++ l₂), saveCoffee store { post with likes := l₁ ++ l₂ })) := by
  constructor
  · intro store id uid post hf hmem
    have hb : ((post.likes.filter (fun l => l == uid)).length == 0) = true := by
      rw [filter_length_eq_count]
      simp [List.count_eq_zero.mpr hmem]
    simp only [unlikeHandler, hf]
    rw [if_pos hb]
  · intro store id uid post l₁ l₂ hf hlikes hnot
    have hmem : uid ∈ post.likes := by
      rw [hlikes]; exact List.mem_append_right _ (List.mem_cons_self _ _)
    have hb : ¬ ((post.likes.filter (fun l => l == uid)).length == 0) = true := by
      simpa [filter_length_eq_count, List.count_eq_zero] using hmem
    have herase : post.likes.eraseIdx (post.likes.indexOf uid) = l₁ ++ l₂ := by
      rw [List.eraseIdx_indexOf_eq_erase, hlikes,
          List.erase_append_right _ hnot, List.erase_cons_head]
    simp only [unlikeHandler, hf]
    rw [if_neg hb, herase]

/-- Witness for C8: on a record liked only by u1, an unlike by u2 answers the
400 conflict, and an unlike by u1 removes the single entry and saves. -/
theorem claim_C8_witness :
    unlikeHandler [shopL] cid1 "u2" =
      (.badRequest "Coffee has not yet been liked", [shopL])
  ∧ unlikeHandler [shopL] cid1 "u1" =
      (.okLikes [], saveCoffee [shopL] { shopL with likes := [] }) :=
  ⟨claim_C8_unlike_removes_single_entry.1 [shopL] cid1 "u2" shopL rfl (by decide),
   claim_C8_unlike_removes_single_entry.2 [shopL] cid1 "u1" shopL [] [] rfl rfl
     (by decide)⟩

end CoffeeRouter

namespace CoffeeRouter

/-! ## Claim C6 -/

/-- C6: removeComment answers 404 ("Comment does not exist") when no comment
with the given id exists, 401 ("User not authorized") when the comment's
author differs from the caller, and otherwise returns and saves the comments
sequence with exactly the single matching entry removed, all other entries
and their relative order unchanged. -/
theorem claim_C6_removeComment :
    (∀ (store : List Coffee) (id cid uid : String) (post : Coffee),
        findById store id = .ok (some post) →
        post.comments.find? (fun c => c.id == cid) = none →
        removeCommentHandler store id cid uid =
          (.notFound "Comment does not exist", store))
  ∧ (∀ (store : List Coffee) (id cid uid : String) (post : Coffee)
        (comment : Comment),
        findById store id = .ok (some post) →
        post.comments.find? (fun c => c.id == cid) = some comment →
        comment.user ≠ uid →
        removeCommentHandler store id cid uid =
          (.unauthorized "User not authorized", store))
  ∧ (∀ (store : List Coffee) (id cid uid : String) (post : Coffee)
        (l₁ l₂ : List Comment) (c : Comment),
        findById store id = .ok (some post) →
        post.comments = l₁ ++ c :: l₂ → c.id = cid → c.user = uid →
        (∀ x ∈ l₁, x.id ≠ cid) → (∀ x ∈ l₂, x.id ≠ cid) →
        removeCommentHandler store id cid uid =
          (.okComments (l₁ ++ l₂),
           saveCoffee store { post with comments := l₁ ++ l₂ })) := by
  refine ⟨?_, ?_, ?_⟩
  · intro store id cid uid post hf hfind
    simp only [removeCommentHandler, hf, hfind]
  · intro store id cid uid post comment hf hfind hne
    simp only [removeCommentHandler, hf, hfind]
    rw [if_pos hne]
  · intro store id cid uid post l₁ l₂ c hf hcomments hcid huser h₁ h₂
    have hfind : post.comments.find? (fun x => x.id == cid) = some c := by
      rw [hcomments, List.find?_append]
      have hnone : l₁.find? (fun x => x.id == cid) = none := by
        rw [List.find?_eq_none]
        intro x hx
        simpa using h₁ x hx
      rw [hnone]
      simp [List.find?_cons_of_pos, hcid]
    have hfilter : post.comments.filter (fun x => x.id != cid) = l₁ ++ l₂ := by
      rw [hcomments, List.filter_append]
      have hl₁ : l₁.filter (fun x => x.id != cid) = l₁ :=
        List.filter_eq_self.mpr (fun x hx => by simpa using h₁ x hx)
      have hl₂ : l₂.filter (fun x => x.id != cid) = l₂ :=
        List.filter_eq_self.mpr (fun x hx => by simpa using h₂ x hx)
      rw [hl₁]
      simp [List.filter_cons, hcid, hl₂]
    simp only [removeCommentHandler, hf, hfind]
    rw [if_neg (not_ne_iff.mpr huser), hfilter]

/-- Witness for C6 on the two-comment record: a missing comment id answers
404, a foreign caller answers 401, and the author's delete removes exactly
that comment, keeping the other. -/
theorem claim_C6_witness :
    removeCommentHandler [shopC] cid1 "c9" "u1" =
      (.notFound "Comment does not exist", [shopC])
  ∧ removeCommentHandler [shopC] cid1 "c1" "u2" =
      (.unauthorized "User not authorized", [shopC])
  ∧ removeCommentHandler [shopC] cid1 "c2" "u2" =
      (.okComments [com1], saveCoffee [shopC] { shopC with comments := [com1] }) :=
  ⟨claim_C6_removeComment.1 [shopC] cid1 "c9" "u1" shopC rfl rfl,
   claim_C6_removeComment.2.1 [shopC] cid1 "c1" "u2" shopC com1 rfl rfl (by decide),
   claim_C6_removeComment.2.2 [shopC] cid1 "c2" "u2" shopC [com1] [] com2 rfl rfl
     rfl rfl (by decide) (by decide)⟩

/-! ## Claim C7 -/

/-- C7 counterexample: the claim states addComment fails with ValidationError
whenever the review value does not parse as a number, but the route only
checks non-emptiness: the non-numeric review "not-a-number" (which coerces to
`NaN`) is accepted with a 200 and stored verbatim. -/
theorem claim_C7_counterexample :
    jsNumber "not-a-number" = JsNum.nan
  ∧ addCommentHandler [shopA] [userAnn] "u1" cid1 "great" "not-a-number" "c9" =
      (.okComments [comNaN], [{ shopA with comments := [comNaN] }])
  ∧ (Response.okComments [comNaN]).statusCode = 200 := by
  refine ⟨by decide, by decide, rfl⟩

/-- C7 amended: addComment fails with the 400 validation response when the
comment text or the review is EMPTY (no numeric parse check exists); on
success the new comment is prepended (newest-first) carrying a snapshot of
the author's current name and avatar, and the record is saved. -/
theorem claim_C7_addComment_empty_checks :
    (∀ (store : List Coffee) (users : List UserDoc) (uid id text review fid : String),
        text = "" ∨ review = "" →
        addCommentHandler store users uid id text review fid =
          (.badRequest "Text is required", store))
  ∧ (∀ (store : List Coffee) (users : List UserDoc)
        (uid id text review fid : String) (user : UserDoc) (coffee : Coffee),
        text ≠ "" → review ≠ "" →
        users.find? (fun u => u.id == uid) = some user →
        findById store id = .ok (some coffee) →
        addCommentHandler store users uid id text review fid =
          (.okComments
            ({ id := fid, text := text, review := review, name := user.name,
               avatar := user.avatar, user := uid } :: coffee.comments),
           saveCoffee store
            { coffee with comments :=
                { id := fid, text := text, review := review, name := user.name,
                  avatar := user.avatar, user := uid } :: coffee.comments })) := by
  constructor
  · intro store users uid id text review fid h
    simp only [addCommentHandler]
    rw [if_pos h]
  · intro store users uid id text review fid user coffee ht hr hu hf
    simp only [addCommentHandler, hu, hf]
    rw [if_neg (by simp [ht, hr])]

/-- Witness for C7: an empty text answers the 400 validation response, and a
valid comment by u1 is prepended with Ann's profile snapshot and saved. -/
theorem claim_C7_witness :
    addCommentHandler [shopA] [userAnn] "u1" cid1 "" "4" "c9" =
      (.badRequest "Text is required", [shopA])
  ∧ addCommentHandler [shopA] [userAnn] "u1" cid1 "tasty" "4" "c9" =
      (.okComments [comTasty],
       saveCoffee [shopA] { shopA with comments := [comTasty] }) :=
  ⟨claim_C7_addComment_empty_checks.1 [shopA] [userAnn] "u1" cid1 "" "4" "c9"
      (Or.inl rfl),
   claim_C7_addComment_empty_checks.2 [shopA] [userAnn] "u1" cid1 "tasty" "4"
      "c9" userAnn shopA (by decide) (by decide) rfl rfl⟩

end CoffeeRouter

namespace CoffeeRouter

/-! ## Claim C5 -/

/-- C5 counterexample: the claim states that a sortKey outside the four named
modes fails with ValidationError (400); but even "lowest" (the code's table
spells the key "loweset") reaches the store with an undefined sort value and
surfaces as a 500 server error — no 400 validation branch exists in the
handler. -/
theorem claim_C5_counterexample :
    listHandler [shopA] "lowest" = .serverError
  ∧ (listHandler [shopA] "lowest").statusCode = 500
  ∧ (listHandler [shopA] "lowest").statusCode ≠ 400 := by
  refine ⟨rfl, rfl, by decide⟩

/-- C5 amended: the list handler applies no sortKey validation; for every
sortby outside the code's four table keys (highest, loweset, most, least —
note the "loweset" spelling), the handler passes an undefined sort value to
the store and surfaces the store's rejection as a 500 server error, never a
400 ValidationError. -/
theorem claim_C5_unknown_sortby_is_500 (store : List Coffee) (sortby : String)
    (h1 : sortby ≠ "highest") (h2 : sortby ≠ "loweset")
    (h3 : sortby ≠ "most") (h4 : sortby ≠ "least") :
    listHandler store sortby = .serverError
  ∧ (listHandler store sortby).statusCode ≠ 400 := by
  have hl : sortLabel sortby = none := by simp [sortLabel, h1, h2, h3, h4]
  have hv : sortDir sortby = none := by simp [sortDir, h1, h2, h3, h4]
  have hres : listHandler store sortby = .serverError := by
    simp only [listHandler, hl, hv]
  exact ⟨hres, by rw [hres]; decide⟩

/-- Witness for C5 at the unknown key "alphabetical". -/
theorem claim_C5_witness :
    listHandler [shopA] "alphabetical" = .serverError
  ∧ (listHandler [shopA] "alphabetical").statusCode ≠ 400 :=
  claim_C5_unknown_sortby_is_500 [shopA] "alphabetical"
    (by decide) (by decide) (by decide) (by decide)

/-! ## Claim C9 -/

/-- C9 counterexample: the claim states that like/unlike on an id matching no
record fail with 404; but the handlers have no null check, so the read of
`post.likes` on the missing record throws and both surface a 500 server
error, not a 404. -/
theorem claim_C9_counterexample :
    (likeHandler [shopA] cid2 "u1").1 = .serverError
  ∧ (unlikeHandler [shopA] cid2 "u1").1 = .serverError
  ∧ ((likeHandler [shopA] cid2 "u1").1).statusCode = 500
  ∧ ((likeHandler [shopA] cid2 "u1").1).statusCode ≠ 404 := by
  refine ⟨by decide, by decide, by decide, by decide⟩

/-- C9 amended: a like or unlike whose identifier matches no record surfaces
a 500 server error (the null-record property access throws and is caught by
the generic handler), and the only outcomes like/unlike ever surface are
200 (success), 400 (conflict) and 500 (server error) — never 404 or 401. -/
theorem claim_C9_like_unlike_missing_is_500 :
    (∀ (store : List Coffee) (id uid : String),
        findById store id = .ok none →
        (likeHandler store id uid).1 = .serverError
      ∧ (unlikeHandler store id uid).1 = .serverError)
  ∧ (∀ (store : List Coffee) (id uid : String),
        (likeHandler store id uid).1.statusCode = 200
      ∨ (likeHandler store id uid).1.statusCode = 400
      ∨ (likeHandler store id uid).1.statusCode = 500)
  ∧ (∀ (store : List Coffee) (id uid : String),
        (unlikeHandler store id uid).1.statusCode = 200
      ∨ (unlikeHandler store id uid).1.statusCode = 400
      ∨ (unlikeHandler store id uid).1.statusCode = 500) := by
  refine ⟨?_, ?_, ?_⟩
  · intro store id uid h
    constructor
    · simp only [likeHandler, h]
    · simp only [unlikeHandler, h]
  · intro store id uid
    rcases hf : findById store id with e | op
    · simp [likeHandler, hf, Response.statusCode]
    · rcases op with _ | post
      · simp [likeHandler, hf, Response.statusCode]
      · by_cases hg : 0 < (post.likes.filter (fun l => l == uid)).length
        · simp [likeHandler, likeWrite, hf, hg, Response.statusCode]
        · simp [likeHandler, likeWrite, hf, hg, Response.statusCode]
  · intro store id uid
    rcases hf : findById store id with e | op
    · simp [unlikeHandler, hf, Response.statusCode]
    · rcases op with _ | post
      · simp [unlikeHandler, hf, Response.statusCode]
      · by_cases hg : (post.likes.filter (fun l => l == uid)).length = 0
        · simp [unlikeHandler, hf, hg, Response.statusCode]
        · simp [unlikeHandler, hf, hg, Response.statusCode]

/-- Witness for C9: on a store holding only shopA, like and unlike of the
absent well-formed id cid2 both surface the 500 server error. -/
theorem claim_C9_witness :
    (likeHandler [shopA] cid2 "u1").1 = .serverError
  ∧ (unlikeHandler [shopA] cid2 "u1").1 = .serverError :=
  claim_C9_like_unlike_missing_is_500.1 [shopA] cid2 "u1" rfl

end CoffeeRouter
